import Mathlib

/-!
Shallow embedding of the Talenthub LMS core logic
(core/models.py, core/services/quiz.py, core/services/assignments.py,
core/views.py, core/views_quiz.py, core/extra_views.py).

Modelling conventions:
* Dates are day numbers (ℕ) and timestamps are ℕ; `timezone.now()` and
  `timezone.now().date()` become explicit `now` / `today` parameters.
* Python's `round(100 * a / b)` on floats is modelled by exact integer
  arithmetic with round-half-to-even, Python 3's rounding mode.
* A quiz score `round(100 * obtained / total, 2)` is stored exactly in
  hundredths of a percent (centi-percent, ℕ): the float 50.0 is 5000.
  The pass test `score >= pass_score` becomes `100 * pass_score ≤ score`.
* Database rows become structures; a row lookup that can miss becomes an
  `Option` argument; `get_or_create` materialises the Django field defaults.
-/

namespace Talenthub

/-- Python's `round (a / b)` for natural `a` and positive `b`: the nearest
integer to `a / b`, ties going to the even neighbour (banker's rounding,
Python 3's mode). -/
def roundHalfEvenDiv (a b : ℕ) : ℕ :=
  if 2 * (a % b) < b then a / b
  else if b < 2 * (a % b) then a / b + 1
  else if a / b % 2 = 0 then a / b else a / b + 1

/-- Profile.role choices (core/models.py). -/
inductive Role
  | ADMIN
  | MANAGER
  | LEARNER
deriving DecidableEq, Repr

/-- Enrollment.Status choices (core/models.py). -/
inductive EnrollmentStatus
  | ASSIGNED
  | IN_PROGRESS
  | COMPLETED
  | OVERDUE
deriving DecidableEq, Repr

/-- Enrollment row (core/models.py): the fields the core logic reads or writes. -/
structure Enrollment where
  progress : ℕ
  status : EnrollmentStatus
  due_date : Option ℕ
  completed_at : Option ℕ
  required : Bool
  auto_enrolled : Bool
deriving DecidableEq, Repr

/-- Django field defaults for Enrollment (progress=0, status=ASSIGNED,
due_date/completed_at null, required=True, auto_enrolled=False). -/
instance : Inhabited Enrollment :=
  ⟨{ progress := 0, status := .ASSIGNED, due_date := none, completed_at := none,
     required := true, auto_enrolled := false }⟩

/-- Enrollment.mark_completed (core/models.py lines 106-111): set status
COMPLETED, set completed_at only when not already set, force progress to 100. -/
def Enrollment.mark_completed (e : Enrollment) (now : ℕ) : Enrollment :=
  { e with
    status := .COMPLETED
    completed_at := some (e.completed_at.getD now)
    progress := 100 }

/-- Question.Kind choices (core/models.py). -/
inductive QuestionKind
  | MULTIPLE
  | TRUE_FALSE
  | SHORT_TEXT
deriving DecidableEq, Repr

/-- Choice row: only is_correct matters to grading. -/
structure Choice where
  is_correct : Bool
deriving DecidableEq, Repr

/-- Question row: type and point weight. -/
structure Question where
  question_type : QuestionKind
  points : ℕ
deriving DecidableEq, Repr

/-- QuizAnswer row: its question and the optionally selected choice. -/
structure QuizAnswer where
  question : Question
  selected_choice : Option Choice
deriving DecidableEq, Repr

/-- Quiz row: its questions and the pass threshold (a whole percentage). -/
structure Quiz where
  questions : List Question
  pass_score : ℕ
deriving DecidableEq, Repr

/-- QuizAttempt row: the fields grade_attempt writes. The score is held in
centi-percent (hundredths of a percent), the exact value of the two-decimal
rounding. -/
structure QuizAttempt where
  score : Option ℕ
  passed : Bool
  finished_at : Option ℕ
deriving DecidableEq, Repr, Inhabited

/-- The obtained-points loop of grade_attempt (core/services/quiz.py lines
18-24): MULTIPLE / TRUE_FALSE answers add the question's points when the
selected choice exists and is correct; SHORT_TEXT answers contribute nothing. -/
def obtainedPoints (answers : List QuizAnswer) : ℕ :=
  answers.foldl
    (fun acc ans =>
      match ans.question.question_type with
      | .MULTIPLE | .TRUE_FALSE =>
        match ans.selected_choice with
        | some c => if c.is_correct then acc + ans.question.points else acc
        | none => acc
      | .SHORT_TEXT => acc)
    0

/-- grade_attempt (core/services/quiz.py lines 5-40). Returns the saved
attempt and the possibly-completed enrollment for (attempt.user, quiz.course);
`enr = none` models Enrollment.DoesNotExist, in which case the function
returns right after saving the attempt. `round(100 * obtained / total, 2)`
is computed exactly in centi-percent as `roundHalfEvenDiv (10000 * obtained)
total`, and `score_pct >= quiz.pass_score` becomes
`100 * pass_score ≤ score_centi`. -/
def grade_attempt (now : ℕ) (quiz : Quiz) (answers : List QuizAnswer)
    ( _attempt : QuizAttempt) (enr : Option Enrollment) :
    QuizAttempt × Option Enrollment :=
  let s := (quiz.questions.map (·.points)).sum
  let total_points := if s = 0 then 1 else s
  let obtained := obtainedPoints answers
  let score_centi : ℕ := roundHalfEvenDiv (10000 * obtained) total_points
  let attempt1 : QuizAttempt :=
    { score := some score_centi
      passed := decide (100 * quiz.pass_score ≤ score_centi)
      finished_at := some now }
  match enr with
  | none => (attempt1, none)
  | some e =>
    if attempt1.passed then (attempt1, some (e.mark_completed now))
    else (attempt1, some e)

/-- Spec-side predicate: an answer that scores, i.e. its question type is
MULTIPLE or TRUE_FALSE and its selected choice has is_correct = true. -/
def scoredCorrect (a : QuizAnswer) : Bool :=
  (a.question.question_type == .MULTIPLE || a.question.question_type == .TRUE_FALSE)
    && a.selected_choice.any (·.is_correct)

/-- Spec-side obtained points: sum of weights over exactly the scoring answers. -/
def obtainedSpec (answers : List QuizAnswer) : ℕ :=
  ((answers.filter scoredCorrect).map (fun a => a.question.points)).sum

/-- Spec-side score in centi-percent:
round(100 × obtained / max(total_points, 1), 2). -/
def scoreSpec (quiz : Quiz) (answers : List QuizAnswer) : ℕ :=
  roundHalfEvenDiv (10000 * obtainedSpec answers)
    (max ((quiz.questions.map (·.points)).sum) 1)

lemma obtainedPoints_go (answers : List QuizAnswer) (acc : ℕ) :
    answers.foldl
      (fun acc ans =>
        match ans.question.question_type with
        | .MULTIPLE | .TRUE_FALSE =>
          match ans.selected_choice with
          | some c => if c.is_correct then acc + ans.question.points else acc
          | none => acc
        | .SHORT_TEXT => acc)
      acc = acc + obtainedSpec answers := by
  induction answers generalizing acc with
  | nil => simp [obtainedSpec]
  | cons a l ih =>
    rw [List.foldl_cons, ih]
    unfold obtainedSpec scoredCorrect
    rcases a with ⟨⟨qt, pts⟩, sel⟩
    cases qt <;> rcases sel with _ | ⟨⟨b⟩⟩ <;> simp [List.filter_cons] <;>
      cases b <;> simp [obtainedSpec] <;> omega

lemma obtainedPoints_eq_spec (answers : List QuizAnswer) :
    obtainedPoints answers = obtainedSpec answers := by
  simpa using obtainedPoints_go answers 0

lemma if_zero_eq_max (s : ℕ) : (if s = 0 then 1 else s) = max s 1 := by
  rcases s with _ | s <;> simp <;> omega

/-- Concrete quiz for Example 2: three questions weighted 1, 2 and 3,
pass_score 60. -/
def exampleQuiz : Quiz :=
  { questions :=
      [ { question_type := .MULTIPLE, points := 1 }
      , { question_type := .MULTIPLE, points := 2 }
      , { question_type := .MULTIPLE, points := 3 } ]
    pass_score := 60 }

/-- Concrete answers for Example 2: correct on the 1- and 2-point questions
only. -/
def exampleAnswers : List QuizAnswer :=
  [ { question := { question_type := .MULTIPLE, points := 1 }
      selected_choice := some { is_correct := true } }
  , { question := { question_type := .MULTIPLE, points := 2 }
      selected_choice := some { is_correct := true } }
  , { question := { question_type := .MULTIPLE, points := 3 }
      selected_choice := some { is_correct := false } } ]

/-- CourseMaterial row: id and owning course (core/models.py). -/
structure CourseMaterial where
  id : ℕ
  course_id : ℕ
deriving DecidableEq, Repr

/-- MaterialProgress row: the fields the aggregation reads (core/models.py). -/
structure MaterialProgress where
  user_id : ℕ
  material_id : ℕ
  is_completed : Bool
deriving DecidableEq, Repr

/-- The material tables the Progress Aggregator queries. -/
structure ProgressDb where
  materials : List CourseMaterial
  mprogress : List MaterialProgress
deriving DecidableEq, Repr

/-- course.materials.count() (core/services/assignments.py line 49). -/
def countMaterials (db : ProgressDb) (course : ℕ) : ℕ :=
  (db.materials.filter (fun m => m.course_id == course)).length

/-- MaterialProgress.objects.filter(user=user, material__course=course,
is_completed=True).count() (core/services/assignments.py line 53). -/
def countDone (db : ProgressDb) (user course : ℕ) : ℕ :=
  (db.mprogress.filter (fun mp =>
      mp.user_id == user && mp.is_completed
        && db.materials.any (fun m => m.id == mp.material_id && m.course_id == course))).length

/-- The percent computation of recompute_enrollment_progress_for
(core/services/assignments.py lines 49-54): 0 when the course has no
materials, else `int(round(100 * done / total))`. -/
def recomputePercent (db : ProgressDb) (user course : ℕ) : ℕ :=
  if countMaterials db course = 0 then 0
  else roundHalfEvenDiv (100 * countDone db user course) (countMaterials db course)

/-- recompute_enrollment_progress_for (core/services/assignments.py lines
48-71). `enr0 = none` models the get_or_create creating a fresh Enrollment
with the Django field defaults. -/
def recompute_enrollment_progress_for (today now : ℕ) (db : ProgressDb)
    (user course : ℕ) (enr0 : Option Enrollment) : Enrollment :=
  let percent := recomputePercent db user course
  let enr := enr0.getD default
  let enr1 :=
    if enr.due_date.any (fun d => decide (percent < 100) && decide (d < today)) then
      { enr with status := EnrollmentStatus.OVERDUE }
    else if percent = 0 then { enr with status := EnrollmentStatus.ASSIGNED }
    else if percent < 100 then { enr with status := EnrollmentStatus.IN_PROGRESS }
    else
      { enr with
        status := EnrollmentStatus.COMPLETED
        completed_at := some (enr.completed_at.getD now) }
  { enr1 with progress := percent }

/-- CourseAssignmentRule row (core/models.py lines 119-126). -/
structure CourseAssignmentRule where
  department : Option ℕ
  role : Option Role
  course : ℕ
  due_in_days : Option ℕ
  required : Bool
  active : Bool
deriving DecidableEq, Repr

/-- The queryset filter of assign_by_rules (core/services/assignments.py
lines 25-42): active rules whose department equals the user's department or
is null — only null when the user has none — and likewise for role. -/
def ruleMatches (dept : Option ℕ) (role : Option Role) (r : CourseAssignmentRule) : Bool :=
  r.active
    && (match dept with
        | some d => r.department == some d || r.department == none
        | none => r.department == none)
    && (match role with
        | some ro => r.role == some ro || r.role == none
        | none => r.role == none)

/-- The due-date computation of assign_by_rules (core/services/assignments.py
line 45): `today + timedelta(days=rule.due_in_days) if rule.due_in_days else
None`. Note the Python truthiness: a due_in_days of 0 yields None. -/
def ruleDue (today : ℕ) (r : CourseAssignmentRule) : Option ℕ :=
  match r.due_in_days with
  | some d => if d = 0 then none else some (today + d)
  | none => none

/-- assign_course (core/services/assignments.py lines 7-20): get_or_create on
(user, course); on creation the defaults carry the given due_date, required
and auto flags; on an existing row, backfill due_date only when the new value
is non-null and the row has none. Returns the enrollment and the created
flag. -/
def assign_course (existing : Option Enrollment) (due_date : Option ℕ)
    (required : Bool) (auto : Bool) : Enrollment × Bool :=
  match existing with
  | none =>
    ({ progress := 0, status := .ASSIGNED, due_date := due_date,
       completed_at := none, required := required, auto_enrolled := auto }, true)
  | some obj =>
    match due_date, obj.due_date with
    | some d, none => ({ obj with due_date := some d }, false)
    | _, _ => (obj, false)

/-- assign_by_rules (core/services/assignments.py lines 22-46): for each
active rule matching the user's department and role, upsert an enrollment in
the rule's course with the computed due date. The enrollment table is a map
from course id to an optional Enrollment row for the given user. -/
def assign_by_rules (today : ℕ) (dept : Option ℕ) (role : Option Role)
    (rules : List CourseAssignmentRule) (enrollments : ℕ → Option Enrollment) :
    ℕ → Option Enrollment :=
  (rules.filter (ruleMatches dept role)).foldl
    (fun db rule =>
      fun c => if c = rule.course then
        some ((assign_course (db rule.course) (ruleDue today rule) rule.required true).1)
      else db c)
    enrollments

/-- The per-user upsert of course_bulk_enroll (core/views.py lines 794-841):
the posted initial progress is clamped to [0, 100]; an existing enrollment is
skipped; a created one gets the clamped progress and, when that is ≥ 100,
completed_at = now — but its status is left at the Django default ASSIGNED. -/
def course_bulk_enroll_user (now : ℕ) (initial_progress : ℤ)
    (existing : Option Enrollment) : Enrollment × Bool :=
  let p : ℕ := (min (max initial_progress 0) 100).toNat
  match existing with
  | some e => (e, false)
  | none =>
    let obj : Enrollment := { (default : Enrollment) with progress := p }
    if p ≥ 100 then ({ obj with completed_at := some now }, true) else (obj, true)

/-- HTTP method of a request to quiz_take. -/
inductive HttpMethod
  | GET
  | POST
deriving DecidableEq, Repr

/-- Whether quiz_take (core/views_quiz.py lines 42-93) creates a new
QuizAttempt: the attempts limit (`attempts_allowed or 1`) is checked only
when the method is GET; a POST creates an attempt unconditionally, and a GET
that passes the check merely renders the form. -/
def quiz_take_creates_attempt (attempts_allowed used : ℕ) (m : HttpMethod) : Bool :=
  let allowed := if attempts_allowed = 0 then 1 else attempts_allowed
  if allowed ≤ used && m == .GET then false
  else
    match m with
    | .POST => true
    | .GET => false

/-- The (quiz, user) attempt count after one quiz_take request. -/
def quiz_take_count_after (attempts_allowed used : ℕ) (m : HttpMethod) : ℕ :=
  if quiz_take_creates_attempt attempts_allowed used m then used + 1 else used

/-- The request user as seen by the impersonation views: id, superuser flag,
and the profile role when a profile exists. -/
structure RequestUser where
  id : ℕ
  is_superuser : Bool
  profile_role : Option Role
deriving DecidableEq, Repr

/-- The session fields the impersonation views touch (core/extra_views.py). -/
structure SessionState where
  impersonator_id : Option ℕ
  is_impersonating : Bool
deriving DecidableEq, Repr

/-- The signal the impersonation start view returns with its redirect. -/
inductive ImpersonateOutcome
  | notAuthorized
  | alreadySelf
  | success
deriving DecidableEq, Repr

/-- _role_of (core/extra_views.py lines 14-18): the profile role, LEARNER
when the profile is missing. -/
def role_of (u : RequestUser) : Role := u.profile_role.getD .LEARNER

/-- _is_admin (core/extra_views.py lines 21-22): superuser or profile role
ADMIN. -/
def is_admin (u : RequestUser) : Bool := u.is_superuser || role_of u == .ADMIN

/-- impersonate_start (core/extra_views.py lines 31-50): refuse non-admins
with an error message; refuse impersonating oneself; otherwise record the
original identity in the session and switch the active identity to the
target. Returns the session, the active user id, and the outcome signal. -/
def impersonate_start (sess : SessionState) (user target : RequestUser) :
    SessionState × ℕ × ImpersonateOutcome :=
  if !is_admin user then (sess, user.id, .notAuthorized)
  else if user.id = target.id then (sess, user.id, .alreadySelf)
  else ({ impersonator_id := some user.id, is_impersonating := true },
        target.id, .success)

lemma grade_attempt_fst (now : ℕ) (quiz : Quiz) (answers : List QuizAnswer)
    (att : QuizAttempt) (enr : Option Enrollment) :
    (grade_attempt now quiz answers att enr).1 =
      { score := some (scoreSpec quiz answers)
        passed := decide (100 * quiz.pass_score ≤ scoreSpec quiz answers)
        finished_at := some now } := by
  simp only [grade_attempt, obtainedPoints_eq_spec, if_zero_eq_max, scoreSpec]
  cases enr with
  | none => rfl
  | some e => dsimp only; split <;> rfl

/-- C1: grade_attempt sets score = round(100 × obtained / max(total_points, 1), 2)
— represented exactly in centi-percent — where total_points sums the point
weights of the quiz's questions and obtained sums the weights of exactly those
answers whose type is MULTIPLE or TRUE_FALSE with a correct selected choice,
and sets passed = (score ≥ pass_score). A quiz with zero questions grades to
score 0 with passed = (0 ≥ pass_score), and the [1,2,3]-weighted quiz with
correct answers on the 1- and 2-point questions grades to 50.00 (5000
centi-percent), failing at pass_score 60. -/
theorem C1_grade_attempt_formula :
    (∀ (now : ℕ) (quiz : Quiz) (answers : List QuizAnswer) (att : QuizAttempt)
        (enr : Option Enrollment),
        (grade_attempt now quiz answers att enr).1.score = some (scoreSpec quiz answers)
          ∧ (grade_attempt now quiz answers att enr).1.passed
              = decide (100 * quiz.pass_score ≤ scoreSpec quiz answers))
    ∧ (∀ (now ps : ℕ) (att : QuizAttempt) (enr : Option Enrollment),
        (grade_attempt now { questions := [], pass_score := ps } [] att enr).1.score
            = some 0
          ∧ (grade_attempt now { questions := [], pass_score := ps } [] att enr).1.passed
              = decide (ps ≤ 0))
    ∧ (grade_attempt 0 exampleQuiz exampleAnswers default none).1.score = some 5000
    ∧ (grade_attempt 0 exampleQuiz exampleAnswers default none).1.passed = false := by
  refine ⟨fun now quiz answers att enr => ?_, fun now ps att enr => ?_, by decide, by decide⟩
  · rw [grade_attempt_fst]
    exact ⟨rfl, rfl⟩
  · rw [grade_attempt_fst]
    have h : scoreSpec { questions := [], pass_score := ps } [] = 0 := by
      simp [scoreSpec, obtainedSpec, roundHalfEvenDiv]
    refine ⟨by simp [h], ?_⟩
    show decide (100 * ps ≤ scoreSpec { questions := [], pass_score := ps } []) = decide (ps ≤ 0)
    rw [h, decide_eq_decide]
    omega

/-- A database with no materials and no progress rows. -/
def emptyDb : ProgressDb := { materials := [], mprogress := [] }

/-- C2 counterexample: a course with zero materials whose enrollment has a
past due_date. recompute gives percent 0, and since 0 < 100 the overdue rule
fires: the status is OVERDUE, not ASSIGNED — the claim's "never OVERDUE,
regardless of due_date" is false. -/
theorem C2_counterexample :
    countMaterials emptyDb 1 = 0
      ∧ (recompute_enrollment_progress_for 3 10 emptyDb 1 1
            (some { (default : Enrollment) with due_date := some 1 })).status
          = EnrollmentStatus.OVERDUE
      ∧ EnrollmentStatus.OVERDUE ≠ EnrollmentStatus.ASSIGNED := by
  decide

/-- C2 amended: for a course with zero materials, recompute yields percent 0
and never COMPLETED; the status is ASSIGNED when the enrollment has no
due_date or the due_date has not passed, and OVERDUE when it has. -/
theorem C2_zero_materials (today now : ℕ) (db : ProgressDb) (user course : ℕ)
    (enr0 : Option Enrollment) (h : countMaterials db course = 0) :
    (recompute_enrollment_progress_for today now db user course enr0).progress = 0
      ∧ (recompute_enrollment_progress_for today now db user course enr0).status
          ≠ EnrollmentStatus.COMPLETED
      ∧ (recompute_enrollment_progress_for today now db user course enr0).status
          = (match (enr0.getD default).due_date with
             | some d => if d < today then EnrollmentStatus.OVERDUE
                         else EnrollmentStatus.ASSIGNED
             | none => EnrollmentStatus.ASSIGNED) := by
  have hp : recomputePercent db user course = 0 := by
    simp [recomputePercent, h]
  simp only [recompute_enrollment_progress_for, hp]
  cases hdue : (enr0.getD default).due_date with
  | none => simp [Option.any]
  | some d =>
    by_cases hlt : d < today <;> simp [Option.any, hdue, hlt]

/-- C2 witness: the amended theorem applied to a concrete empty database. -/
theorem C2_witness :
    (recompute_enrollment_progress_for 4 9 emptyDb 2 7 none).progress = 0
      ∧ (recompute_enrollment_progress_for 4 9 emptyDb 2 7 none).status
          ≠ EnrollmentStatus.COMPLETED
      ∧ (recompute_enrollment_progress_for 4 9 emptyDb 2 7 none).status
          = EnrollmentStatus.ASSIGNED :=
  C2_zero_materials 4 9 emptyDb 2 7 none (by decide)

/-- C7 counterexample: with attempts_allowed = 1 and 1 attempt already used,
a POST to quiz_take still creates an attempt, so the (quiz, user) attempt
count reaches 2 > 1. -/
theorem C7_counterexample :
    quiz_take_count_after 1 1 HttpMethod.POST = 2 ∧ ¬(2 ≤ 1) := by
  decide

/-- C7 amended: the attempts limit is enforced only on GET page loads — a GET
never creates an attempt (whether it renders the form or the no-attempts
page), while a POST creates an attempt unconditionally, even when the count
has already reached attempts_allowed. -/
theorem C7_attempt_limit (allowed used : ℕ) :
    quiz_take_count_after allowed used HttpMethod.GET = used
      ∧ quiz_take_count_after allowed used HttpMethod.POST = used + 1 := by
  constructor <;>
    simp only [quiz_take_count_after, quiz_take_creates_attempt] <;>
    split <;> simp_all

/-- C9: an impersonation-start request by a user who is not a superuser and
whose resolved profile role is not ADMIN is refused with the not-authorized
signal, the session is unchanged, and the active identity stays the
requester. -/
theorem C9_impersonate_start_nonadmin (sess : SessionState) (user target : RequestUser)
    (hsu : user.is_superuser = false) (hrole : role_of user ≠ Role.ADMIN) :
    impersonate_start sess user target
      = (sess, user.id, ImpersonateOutcome.notAuthorized) := by
  have hadm : is_admin user = false := by
    simp [is_admin, hsu, hrole]
  simp [impersonate_start, hadm]

/-- C9 witness: a concrete learner (no superuser flag) is refused and nothing
changes. -/
theorem C9_witness :
    impersonate_start { impersonator_id := none, is_impersonating := false }
        { id := 3, is_superuser := false, profile_role := some Role.LEARNER }
        { id := 8, is_superuser := false, profile_role := some Role.LEARNER }
      = ({ impersonator_id := none, is_impersonating := false }, 3,
         ImpersonateOutcome.notAuthorized) :=
  C9_impersonate_start_nonadmin _ _ _ rfl (by decide)

/-- A course (id 1) with 300 materials of which user 7 completed 299. -/
def bigDb : ProgressDb :=
  { materials := (List.range 300).map (fun i => { id := i, course_id := 1 })
    mprogress := (List.range 299).map
      (fun i => { user_id := 7, material_id := i, is_completed := true }) }

set_option maxRecDepth 100000 in
set_option maxHeartbeats 1000000 in
/-- C10: completing 299 of 300 materials rounds 99.67% up to percent 100, so
recompute marks the enrollment COMPLETED with a completed_at timestamp even
though not every material is completed. -/
theorem C10_rounding_reaches_completed :
    countDone bigDb 7 1 = 299
      ∧ countMaterials bigDb 1 = 300
      ∧ (299 : ℕ) < 300
      ∧ recomputePercent bigDb 7 1 = 100
      ∧ (recompute_enrollment_progress_for 0 42 bigDb 7 1 none).progress = 100
      ∧ (recompute_enrollment_progress_for 0 42 bigDb 7 1 none).status
          = EnrollmentStatus.COMPLETED
      ∧ (recompute_enrollment_progress_for 0 42 bigDb 7 1 none).completed_at = some 42 := by
  decide

lemma roundHalfEvenDiv_le (a b n : ℕ) (hb : 0 < b) (h : a ≤ n * b) :
    roundHalfEvenDiv a b ≤ n := by
  have hq : a / b ≤ n := by
    have h1 := Nat.div_le_div_right (c := b) h
    rwa [Nat.mul_div_cancel _ hb] at h1
  have hdm : b * (a / b) + a % b = a := Nat.div_add_mod a b
  have hqlt : a / b = n → a % b = 0 := by
    intro he
    have : n * b + a % b ≤ n * b := by
      calc n * b + a % b = b * (a / b) + a % b := by rw [he, Nat.mul_comm]
        _ = a := hdm
        _ ≤ n * b := h
    omega
  unfold roundHalfEvenDiv
  split_ifs with h1 h2 h3
  · exact hq
  · rcases Nat.lt_or_ge (a / b) n with hlt | hge
    · omega
    · have he : a / b = n := le_antisymm hq hge
      have := hqlt he
      omega
  · exact hq
  · rcases Nat.lt_or_ge (a / b) n with hlt | hge
    · omega
    · have he : a / b = n := le_antisymm hq hge
      have := hqlt he
      omega

lemma recomputePercent_le (db : ProgressDb) (user course : ℕ)
    (h : countDone db user course ≤ countMaterials db course) :
    recomputePercent db user course ≤ 100 := by
  unfold recomputePercent
  split_ifs with htot
  · omega
  · exact roundHalfEvenDiv_le _ _ _ (Nat.pos_of_ne_zero htot)
      (Nat.mul_le_mul_left _ h)

/-- C3 counterexample: course_bulk_enroll on a department user with no prior
enrollment and initial progress 100 creates an enrollment whose progress is
100 but whose status is the default ASSIGNED (only completed_at is set), so
an operation does produce progress == 100 with status ASSIGNED. -/
theorem C3_counterexample :
    (course_bulk_enroll_user 5 100 none).1.progress = 100
      ∧ (course_bulk_enroll_user 5 100 none).1.status = EnrollmentStatus.ASSIGNED
      ∧ (course_bulk_enroll_user 5 100 none).1.completed_at = some 5
      ∧ (course_bulk_enroll_user 5 100 none).2 = true := by
  decide

/-- C3 amended: recompute preserves the invariant progress == 100 ⇔ status
COMPLETED (given the database invariant that at most total materials are
completed), and mark_completed establishes it; but bulk enrollment creation
with an initial progress of 100 creates an enrollment with progress 100 and
status ASSIGNED, breaking the biconditional. -/
theorem C3_progress_completed_invariant :
    (∀ (today now : ℕ) (db : ProgressDb) (user course : ℕ) (enr0 : Option Enrollment),
        countDone db user course ≤ countMaterials db course →
          ((recompute_enrollment_progress_for today now db user course enr0).progress = 100
            ↔ (recompute_enrollment_progress_for today now db user course enr0).status
                = EnrollmentStatus.COMPLETED))
      ∧ (∀ (e : Enrollment) (now : ℕ),
          (e.mark_completed now).progress = 100
            ∧ (e.mark_completed now).status = EnrollmentStatus.COMPLETED)
      ∧ (∀ (now : ℕ),
          (course_bulk_enroll_user now 100 none).1.progress = 100
            ∧ (course_bulk_enroll_user now 100 none).1.status
                = EnrollmentStatus.ASSIGNED) := by
  refine ⟨fun today now db user course enr0 h => ?_, fun e now => ⟨rfl, rfl⟩,
    fun now => ⟨rfl, rfl⟩⟩
  have hle := recomputePercent_le db user course h
  simp only [recompute_enrollment_progress_for]
  set p := recomputePercent db user course with hp
  split_ifs with h1 h2 h3
  · have hplt : p < 100 := by
      cases hdue : (Option.getD enr0 default).due_date with
      | none => rw [hdue] at h1; simp [Option.any] at h1
      | some d =>
        rw [hdue] at h1
        simp only [Option.any, Bool.and_eq_true, decide_eq_true_eq] at h1
        exact h1.1
    simp
    omega
  · simp
    omega
  · simp
    omega
  · simp
    omega

/-- C3 witness: the recompute part of the amended invariant at a concrete
empty database. -/
theorem C3_witness :
    (recompute_enrollment_progress_for 0 1 emptyDb 1 1 none).progress = 100
      ↔ (recompute_enrollment_progress_for 0 1 emptyDb 1 1 none).status
          = EnrollmentStatus.COMPLETED :=
  C3_progress_completed_invariant.1 0 1 emptyDb 1 1 none (by decide)

lemma any_overdue_lt {p today : ℕ} {due : Option ℕ}
    (h : (due.any fun d => decide (p < 100) && decide (d < today)) = true) :
    p < 100 := by
  cases due with
  | none => simp [Option.any] at h
  | some d =>
    simp only [Option.any, Bool.and_eq_true, decide_eq_true_eq] at h
    exact h.1

/-- C5: once completed_at is non-null, recompute and mark_completed (the
pass-triggered completion) leave it unchanged; when it is null, recompute
writes it (to now) exactly when the computed percent reaches 100, and
mark_completed writes it to now. -/
theorem C5_completed_at_write_once (today now t : ℕ) (db : ProgressDb)
    (user course : ℕ) (e : Enrollment) :
    (e.completed_at = some t →
        (recompute_enrollment_progress_for today now db user course (some e)).completed_at
          = some t)
      ∧ (e.completed_at = some t → (e.mark_completed now).completed_at = some t)
      ∧ (e.completed_at = none →
          (recompute_enrollment_progress_for today now db user course (some e)).completed_at
            = (if 100 ≤ recomputePercent db user course then some now else none))
      ∧ (e.completed_at = none → (e.mark_completed now).completed_at = some now) := by
  simp only [recompute_enrollment_progress_for, Option.getD_some]
  set p := recomputePercent db user course with hp
  refine ⟨fun hc => ?_, fun hc => ?_, fun hc => ?_, fun hc => ?_⟩
  · split_ifs with h1 h2 h3 <;> simp [hc]
  · simp [Enrollment.mark_completed, hc]
  · by_cases hge : 100 ≤ p
    · have hcf : (e.due_date.any fun d => decide (p < 100) && decide (d < today)) = false := by
        cases e.due_date <;> simp [Option.any] <;> omega
      rw [if_pos hge]
      split_ifs with h1 h2 h3
      · rw [hcf] at h1; cases h1
      · omega
      · omega
      · simp [hc]
    · rw [if_neg hge]
      split_ifs with h1 h2 h3
      · simp [hc]
      · simp [hc]
      · simp [hc]
      · omega
  · simp [Enrollment.mark_completed, hc]

/-- C5 witness: the write-once rule applied to a concrete enrollment with
completed_at already set and to one without. -/
theorem C5_witness :
    ((recompute_enrollment_progress_for 0 9 emptyDb 1 1
        (some { (default : Enrollment) with completed_at := some 5 })).completed_at = some 5)
      ∧ (({ (default : Enrollment) with
            completed_at := some 5 } : Enrollment).mark_completed 9).completed_at = some 5
      ∧ (recompute_enrollment_progress_for 0 9 emptyDb 1 1
            (some (default : Enrollment))).completed_at = none
      ∧ ((default : Enrollment).mark_completed 9).completed_at = some 9 :=
  ⟨(C5_completed_at_write_once 0 9 5 emptyDb 1 1 _).1 rfl,
   (C5_completed_at_write_once 0 9 5 emptyDb 1 1 _).2.1 rfl,
   by
    have h := (C5_completed_at_write_once 0 9 5 emptyDb 1 1 (default : Enrollment)).2.2.1 rfl
    simpa using h,
   (C5_completed_at_write_once 0 9 5 emptyDb 1 1 _).2.2.2 rfl⟩

/-- C6: recompute is idempotent — with the material data and the date
unchanged, a second recompute (at any later timestamp now2) leaves the
enrollment exactly as the first call did. -/
theorem C6_recompute_idempotent (today now now2 : ℕ) (db : ProgressDb)
    (user course : ℕ) (enr0 : Option Enrollment) :
    recompute_enrollment_progress_for today now2 db user course
        (some (recompute_enrollment_progress_for today now db user course enr0))
      = recompute_enrollment_progress_for today now db user course enr0 := by
  set p := recomputePercent db user course with hp
  set e := enr0.getD default with he
  rcases hd : e.due_date with _ | d
  · by_cases h2 : p = 0
    · simp [recompute_enrollment_progress_for, ← he, ← hp, hd, h2]
    · by_cases h3 : p < 100
      · simp [recompute_enrollment_progress_for, ← he, ← hp, hd, h2, h3]
      · simp [recompute_enrollment_progress_for, ← he, ← hp, hd, h2, h3]
  · by_cases hdt : d < today
    · by_cases h3 : p < 100
      · simp [recompute_enrollment_progress_for, ← he, ← hp, hd, hdt, h3]
      · have h2 : ¬ p = 0 := by omega
        simp [recompute_enrollment_progress_for, ← he, ← hp, hd, hdt, h2, h3]
    · by_cases h2 : p = 0
      · simp [recompute_enrollment_progress_for, ← he, ← hp, hd, hdt, h2]
      · by_cases h3 : p < 100
        · simp [recompute_enrollment_progress_for, ← he, ← hp, hd, hdt, h2, h3]
        · simp [recompute_enrollment_progress_for, ← he, ← hp, hd, hdt, h2, h3]

/-- C8: grading always succeeds independently of the enrollment lookup — the
saved attempt is the same whether or not the (user, course) enrollment
exists, with score and finished_at set; with no enrollment the completion
side effect is skipped, and with one present a passing attempt completes it
through mark_completed (the write-once completed_at rule) while a failing
attempt leaves it untouched. -/
theorem C8_grade_enrollment_side_effect (now : ℕ) (quiz : Quiz)
    (answers : List QuizAnswer) (att : QuizAttempt) (e : Enrollment) :
    (grade_attempt now quiz answers att none).1
        = (grade_attempt now quiz answers att (some e)).1
      ∧ (grade_attempt now quiz answers att none).1.finished_at = some now
      ∧ ((grade_attempt now quiz answers att none).1.score).isSome = true
      ∧ (grade_attempt now quiz answers att none).2 = none
      ∧ (100 * quiz.pass_score ≤ scoreSpec quiz answers →
          (grade_attempt now quiz answers att (some e)).2 = some (e.mark_completed now))
      ∧ (¬(100 * quiz.pass_score ≤ scoreSpec quiz answers) →
          (grade_attempt now quiz answers att (some e)).2 = some e) := by
  refine ⟨(grade_attempt_fst now quiz answers att none).trans
      (grade_attempt_fst now quiz answers att (some e)).symm,
    by rw [grade_attempt_fst], by rw [grade_attempt_fst]; rfl,
    by simp [grade_attempt], fun h => ?_, fun h => ?_⟩
  · simp only [scoreSpec] at h
    simp [grade_attempt, obtainedPoints_eq_spec, if_zero_eq_max, h]
  · simp only [scoreSpec] at h
    simp [grade_attempt, obtainedPoints_eq_spec, if_zero_eq_max, h]

/-- A one-question quiz with pass threshold 50, and a correct answer to it. -/
def passQuiz : Quiz :=
  { questions := [{ question_type := .TRUE_FALSE, points := 2 }], pass_score := 50 }

/-- The correct answer to the single question of passQuiz. -/
def passAnswers : List QuizAnswer :=
  [{ question := { question_type := .TRUE_FALSE, points := 2 }
     selected_choice := some { is_correct := true } }]

/-- C8 witness: grading a passing attempt with an existing default enrollment
completes it, a failing attempt leaves it untouched, and grading with no
enrollment yields no side effect. -/
theorem C8_witness :
    (grade_attempt 3 passQuiz passAnswers default (some (default : Enrollment))).2
        = some ((default : Enrollment).mark_completed 3)
      ∧ (grade_attempt 3 passQuiz [] default (some (default : Enrollment))).2
          = some (default : Enrollment)
      ∧ (grade_attempt 3 passQuiz passAnswers default none).2 = none :=
  ⟨(C8_grade_enrollment_side_effect 3 passQuiz passAnswers default default).2.2.2.2.1
      (by decide),
   (C8_grade_enrollment_side_effect 3 passQuiz [] default default).2.2.2.2.2
      (by decide),
   (C8_grade_enrollment_side_effect 3 passQuiz passAnswers default default).2.2.2.1⟩

lemma any_of_filter {α : Type} (p q : α → Bool) (l : List α) :
    (l.filter p).any q = l.any (fun x => p x && q x) := by
  induction l with
  | nil => rfl
  | cons a l ih =>
    by_cases hp : p a = true <;> simp [List.filter_cons, hp, ih]

lemma assign_fold_isSome (today : ℕ) (rs : List CourseAssignmentRule)
    (db : ℕ → Option Enrollment) (c : ℕ) :
    ((rs.foldl (fun db rule =>
        fun c => if c = rule.course then
          some ((assign_course (db rule.course) (ruleDue today rule) rule.required true).1)
        else db c) db) c).isSome
      = ((db c).isSome || rs.any (fun r => r.course == c)) := by
  induction rs generalizing db with
  | nil => simp
  | cons r rs ih =>
    rw [List.foldl_cons, ih]
    by_cases hc : c = r.course
    · simp [hc]
    · have hbc : (r.course == c) = false := beq_eq_false_iff_ne.mpr (fun h => hc h.symm)
      simp [hc, hbc]

/-- Rule for the C4 counterexample: matches every user, with due_in_days
explicitly set to 0. -/
def zeroDayRule : CourseAssignmentRule :=
  { department := none, role := none, course := 9, due_in_days := some 0,
    required := true, active := true }

/-- C4 counterexample: a rule with due_in_days set to 0 enrolls the user, but
because of Python truthiness (`if rule.due_in_days`) the created enrollment
gets due_date None instead of today + 0 = today; the claim's
"today + rule.due_in_days when due_in_days is set" fails at due_in_days = 0. -/
theorem C4_counterexample :
    zeroDayRule.due_in_days = some 0
      ∧ (assign_by_rules 5 none (some Role.LEARNER) [zeroDayRule] (fun _ => none) 9).isSome
          = true
      ∧ ((assign_by_rules 5 none (some Role.LEARNER) [zeroDayRule] (fun _ => none) 9).getD
            default).due_date = none
      ∧ (5 + 0 : ℕ) = 5
      ∧ ((assign_by_rules 5 none (some Role.LEARNER) [zeroDayRule] (fun _ => none) 9).getD
            default).due_date ≠ some 5 := by
  decide

/-- Rule for Example 3 of the spec: no filters, due in 7 days. -/
def sevenDayRule : CourseAssignmentRule :=
  { department := none, role := none, course := 4, due_in_days := some 7,
    required := true, active := true }

/-- C4 amended: apply_rules enrolls the user in exactly the courses of
matching active rules (department filter null or equal, role filter null or
equal); an existing enrollment is never duplicated and its non-null due_date
is never overwritten, while a null one is backfilled with the computed
due date; the computed due date is today + due_in_days when due_in_days is
set and nonzero, and null when it is unset or zero. A new user with no
department and the single rule (null, null, due_in_days=7) gets enrolled in
the rule's course with due_date = today + 7. -/
theorem C4_rule_engine :
    (∀ (today : ℕ) (dept : Option ℕ) (role : Option Role)
        (rules : List CourseAssignmentRule) (db : ℕ → Option Enrollment) (c : ℕ),
        (assign_by_rules today dept role rules db c).isSome
          = ((db c).isSome || rules.any (fun r => ruleMatches dept role r && r.course == c)))
      ∧ (∀ (dept : Option ℕ) (role : Option Role) (r : CourseAssignmentRule),
          ruleMatches dept role r
            = (r.active && (r.department == none || r.department == dept)
                && (r.role == none || r.role == role)))
      ∧ (∀ (e : Enrollment) (due : Option ℕ) (req auto : Bool) (x : ℕ),
          e.due_date = some x →
            (assign_course (some e) due req auto).1.due_date = some x
              ∧ (assign_course (some e) due req auto).2 = false)
      ∧ (∀ (e : Enrollment) (due : Option ℕ) (req auto : Bool),
          e.due_date = none → (assign_course (some e) due req auto).1.due_date = due)
      ∧ (∀ (today : ℕ) (r : CourseAssignmentRule) (d : ℕ),
          r.due_in_days = some d →
            ruleDue today r = (if d = 0 then none else some (today + d)))
      ∧ (∀ (today : ℕ),
          assign_by_rules today none (some Role.LEARNER) [sevenDayRule] (fun _ => none) 4
            = some { progress := 0, status := EnrollmentStatus.ASSIGNED,
                     due_date := some (today + 7), completed_at := none,
                     required := true, auto_enrolled := true }) := by
  refine ⟨fun today dept role rules db c => ?_, fun dept role r => ?_,
    fun e due req auto x hx => ?_, fun e due req auto hx => ?_,
    fun today r d hd => ?_, fun today => ?_⟩
  · rw [assign_by_rules, assign_fold_isSome, any_of_filter]
  · rcases r with ⟨rd, rr, rc, rdd, rreq, ract⟩
    cases ract <;> cases dept <;> cases role <;>
      simp [ruleMatches] <;> cases rd <;> cases rr <;> simp
  · rcases due with _ | d <;> rcases e with ⟨p, s, ed, ca, rq, au⟩ <;>
      simp_all [assign_course]
  · rcases due with _ | d <;> rcases e with ⟨p, s, ed, ca, rq, au⟩ <;>
      simp_all [assign_course]
  · simp [ruleDue, hd]
  · simp [assign_by_rules, ruleMatches, sevenDayRule, ruleDue, assign_course,
      List.filter, List.foldl]

/-- C4 witness: the amended guarantees exercised at concrete inputs — an
existing due date survives, a missing one is backfilled, and the zero/nonzero
due_in_days computations. -/
theorem C4_witness :
    ((assign_course (some { (default : Enrollment) with due_date := some 3 })
          (some 11) true true).1.due_date = some 3
        ∧ (assign_course (some { (default : Enrollment) with due_date := some 3 })
            (some 11) true true).2 = false)
      ∧ (assign_course (some (default : Enrollment)) (some 11) true true).1.due_date
          = some 11
      ∧ ruleDue 5 zeroDayRule = none
      ∧ ruleDue 5 sevenDayRule = some 12 :=
  ⟨C4_rule_engine.2.2.1 _ (some 11) true true 3 rfl,
   C4_rule_engine.2.2.2.1 _ (some 11) true true rfl,
   by
    have h := C4_rule_engine.2.2.2.2.1 5 zeroDayRule 0 rfl
    simpa using h,
   by
    have h := C4_rule_engine.2.2.2.2.1 5 sevenDayRule 7 rfl
    simpa using h⟩

end Talenthub
